import Mathlib

/-!
Shallow embedding of `src/plugins/virtualcomms/__init__.py` (the AstroBox
virtual printer comms plugin).  Python dicts are modelled as association
lists (`alookup` / `setKey` mirror `d[k]` reads and `d[k] = v` writes),
numeric settings and the completion fraction as rationals, temperatures as
integers, and the two background threads (`TempsChanger.run`,
`JobSimulator.run`) as fuelled loops that return `none` when the source
would block forever or raise, and `some` with the final state and the
trace of collaborator callbacks otherwise.
-/

/-- Python dict read `m[k]`: `none` models a `KeyError`. -/
def alookup {α β : Type} [DecidableEq α] : List (α × β) → α → Option β
  | [], _ => none
  | p :: rest, k => if k = p.1 then some p.2 else alookup rest k

/-- Python dict write `m[k] = v`: replace the entry when the key is present,
append a new entry otherwise. -/
def setKey {α β : Type} [DecidableEq α] (m : List (α × β)) (k : α) (v : β) :
    List (α × β) :=
  if (alookup m k).isSome then
    m.map fun p => if p.1 = k then (k, v) else p
  else
    m ++ [(k, v)]

theorem alookup_map_replace {α β : Type} [DecidableEq α]
    (m : List (α × β)) (k : α) (v : β) (h : (alookup m k).isSome) :
    alookup (m.map fun p => if p.1 = k then (k, v) else p) k = some v := by
  induction m with
  | nil => simp [alookup] at h
  | cons p rest ih =>
    by_cases hp : p.1 = k
    · simp [alookup, hp]
    · have hk : ¬ k = p.1 := fun hkk => hp hkk.symm
      simp [alookup, hp, hk] at h ⊢
      exact ih h

theorem alookup_append_single {α β : Type} [DecidableEq α]
    (m : List (α × β)) (k k' : α) (v : β) :
    alookup (m ++ [(k, v)]) k' =
      if (alookup m k').isSome then alookup m k' else if k' = k then some v else none := by
  induction m with
  | nil => simp [alookup]
  | cons p rest ih =>
    by_cases hp : k' = p.1
    · simp [alookup, hp]
    · simp [alookup, hp, ih]

theorem alookup_map_replace_ne {α β : Type} [DecidableEq α]
    (m : List (α × β)) (k k' : α) (v : β) (h : k' ≠ k) :
    alookup (m.map fun p => if p.1 = k then (k, v) else p) k' = alookup m k' := by
  induction m with
  | nil => simp [alookup]
  | cons p rest ih =>
    by_cases hp : p.1 = k
    · have hk'p : ¬ k' = p.1 := by rw [hp]; exact h
      simp [alookup, hp, h, hk'p, ih]
    · by_cases hp' : k' = p.1
      · simp [alookup, hp, hp']
      · simp [alookup, hp, hp', ih]

theorem alookup_setKey_self {α β : Type} [DecidableEq α]
    (m : List (α × β)) (k : α) (v : β) :
    alookup (setKey m k v) k = some v := by
  by_cases h : (alookup m k).isSome
  · simp [setKey, h, alookup_map_replace m k v h]
  · rw [setKey, if_neg h, alookup_append_single]
    rw [if_neg h, if_pos rfl]

theorem alookup_setKey_ne {α β : Type} [DecidableEq α]
    (m : List (α × β)) (k k' : α) (v : β) (h : k' ≠ k) :
    alookup (setKey m k v) k' = alookup m k' := by
  by_cases hm : (alookup m k).isSome
  · rw [setKey, if_pos hm, alookup_map_replace_ne m k k' v h]
  · rw [setKey, if_neg hm, alookup_append_single, if_neg h]
    by_cases hk' : (alookup m k').isSome
    · rw [if_pos hk']
    · rw [if_neg hk']
      rcases ho : alookup m k' with _ | w
      · rfl
      · rw [ho] at hk'; exact absurd rfl hk'

theorem alookup_setKey_isSome {α β : Type} [DecidableEq α]
    (m : List (α × β)) (k k' : α) (v : β) (h : (alookup m k').isSome) :
    (alookup (setKey m k v) k').isSome := by
  by_cases hk : k' = k
  · rw [hk, alookup_setKey_self]; rfl
  · rw [alookup_setKey_ne m k k' v hk]; exact h

theorem alookup_isSome_of_mem {α β : Type} [DecidableEq α]
    (m : List (α × β)) (p : α × β) (hp : p ∈ m) :
    (alookup m p.1).isSome := by
  induction m with
  | nil => cases hp
  | cons q rest ih =>
    by_cases hq : p.1 = q.1
    · simp [alookup, hq]
    · rcases List.mem_cons.mp hp with h | h
      · exact absurd (by rw [h]) hq
      · simp [alookup, hq, ih h]

/-! ## TempsChanger (`class TempsChanger(threading.Thread)`)

State of the temperature-ramping worker: the stop flag and the `_targets` /
`_actuals` dicts (channel name, e.g. "tool0" / "bed", to degrees). -/

structure TempsChanger where
  stopped : Bool
  targets : List (String × Int)
  actuals : List (String × Int)
deriving DecidableEq

/-- Snapshot published to `self._manager.mcTempUpdate` by `_updateTemps`
each tick: the actuals and targets maps (the source formats them into a
tools map keyed by numeric suffix and a bed pair before publishing). -/
def TempSnapshot : Type := List (String × Int) × List (String × Int)

/-- `TempsChanger.__init__`: not stopped, both dicts empty. -/
def TempsChanger.init : TempsChanger :=
  { stopped := false, targets := [], actuals := [] }

/-- The per-channel body of the tick in `TempsChanger.run`:
`if actual > target: actual -= 5 elif actual < target: actual += 5`. -/
def TempsChanger.nudge (a tgt : Int) : Int :=
  if a > tgt then a - 5 else if a < tgt then a + 5 else a

/-- One pass of `for t in self._targets.keys()` updating `self._actuals[t]`;
`none` models the `KeyError` raised when a targeted channel is missing from
`_actuals`. -/
def TempsChanger.nudgeAll : List (String × Int) → List (String × Int) →
    Option (List (String × Int))
  | [], ac => some ac
  | (k, tgt) :: rest, ac =>
    (alookup ac k).bind fun a =>
      TempsChanger.nudgeAll rest (setKey ac k (TempsChanger.nudge a tgt))

/-- One iteration of the `while` body of `TempsChanger.run` (before
`_updateTemps` and the sleep). -/
def TempsChanger.step (s : TempsChanger) : Option TempsChanger :=
  (TempsChanger.nudgeAll s.targets s.actuals).map fun ac => { s with actuals := ac }

/-- `n` consecutive tick iterations of `TempsChanger.run`. -/
def TempsChanger.iter : Nat → TempsChanger → Option TempsChanger
  | 0, s => some s
  | n + 1, s => (TempsChanger.step s).bind fun s' => TempsChanger.iter n s'

/-- `TempsChanger.stop`: flips the flag observed at the top of the loop. -/
def TempsChanger.stop (s : TempsChanger) : TempsChanger :=
  { s with stopped := true }

/-- `TempsChanger.setTarget`: update/create the target and lazily create the
actual at 0 for a newly seen channel. -/
def TempsChanger.setTarget (s : TempsChanger) (ty : String) (target : Int) :
    TempsChanger :=
  { s with
    targets := setKey s.targets ty target,
    actuals :=
      if (alookup s.actuals ty).isSome then s.actuals else setKey s.actuals ty 0 }

/-- `TempsChanger.run`, fuelled: loop while not stopped, each iteration
nudging every targeted channel and then publishing a snapshot.  `none`
models fuel running out while the loop is still going (the real thread
loops until stopped) or the `KeyError` of a missed `_actuals` lookup;
`some (final, trace)` gives the state at loop exit and the published
snapshots. -/
def TempsChanger.run : Nat → TempsChanger → Option (TempsChanger × List TempSnapshot)
  | 0, s => if s.stopped then some (s, []) else none
  | fuel + 1, s =>
    if s.stopped then some (s, [])
    else
      (TempsChanger.step s).bind fun s' =>
        (TempsChanger.run fuel s').map fun r =>
          (r.1, ((s'.actuals, s'.targets) : TempSnapshot) :: r.2)

/-- Operations another thread can invoke on the worker between ticks. -/
inductive TCOp
  | setTarget (ty : String) (target : Int)
  | tick

/-- Interleaving of `setTarget` calls and loop ticks, starting anywhere. -/
def TempsChanger.applyOps : List TCOp → TempsChanger → Option TempsChanger
  | [], s => some s
  | TCOp.setTarget ty v :: rest, s =>
    TempsChanger.applyOps rest (TempsChanger.setTarget s ty v)
  | TCOp.tick :: rest, s =>
    (TempsChanger.step s).bind fun s' => TempsChanger.applyOps rest s'

/-- Invariant of §3: every key in `targets` has a corresponding key in
`actuals`. -/
def TempsChanger.inv (s : TempsChanger) : Prop :=
  ∀ k : String, (alookup s.targets k).isSome → (alookup s.actuals k).isSome

theorem TempsChanger.step_targets (s s' : TempsChanger)
    (h : TempsChanger.step s = some s') : s'.targets = s.targets := by
  rcases hn : TempsChanger.nudgeAll s.targets s.actuals with _ | ac
  · rw [TempsChanger.step, hn] at h; cases h
  · rw [TempsChanger.step, hn] at h
    cases h
    rfl

theorem TempsChanger.nudgeAll_lookup_of_not_mem
    (l ac ac' : List (String × Int)) (k : String)
    (hk : k ∉ l.map Prod.fst) (h : TempsChanger.nudgeAll l ac = some ac') :
    alookup ac' k = alookup ac k := by
  induction l generalizing ac with
  | nil => rw [TempsChanger.nudgeAll] at h; cases h; rfl
  | cons p rest ih =>
    obtain ⟨k0, t0⟩ := p
    rw [TempsChanger.nudgeAll] at h
    rcases ha : alookup ac k0 with _ | a0
    · rw [ha] at h; cases h
    · rw [ha, Option.some_bind] at h
      have hk0 : k ≠ k0 := by
        intro hkk
        exact hk (by simp [hkk])
      have hkrest : k ∉ rest.map Prod.fst := by
        intro hmem
        exact hk (by simp [hmem])
      rw [ih _ hkrest h, alookup_setKey_ne _ _ _ _ hk0]

/-- Core of the per-tick property: processing the target list updates the
looked-up channel by exactly one `nudge`. -/
theorem TempsChanger.nudgeAll_lookup
    (l : List (String × Int)) (ac ac' : List (String × Int))
    (k : String) (a tgt : Int)
    (hnd : (l.map Prod.fst).Nodup)
    (ht : alookup l k = some tgt)
    (ha : alookup ac k = some a)
    (h : TempsChanger.nudgeAll l ac = some ac') :
    alookup ac' k = some (TempsChanger.nudge a tgt) := by
  induction l generalizing ac with
  | nil => rw [alookup] at ht; cases ht
  | cons p rest ih =>
    obtain ⟨k0, t0⟩ := p
    rw [TempsChanger.nudgeAll] at h
    rcases ha0 : alookup ac k0 with _ | a0
    · rw [ha0] at h; cases h
    · rw [ha0, Option.some_bind] at h
      by_cases hk : k = k0
      · subst hk
        rw [alookup, if_pos rfl] at ht
        cases ht
        rw [ha] at ha0
        cases ha0
        have hkrest : k ∉ rest.map Prod.fst := by
          have := hnd
          simp only [List.map_cons, List.nodup_cons] at this
          exact this.1
        rw [TempsChanger.nudgeAll_lookup_of_not_mem rest _ ac' k hkrest h,
          alookup_setKey_self]
      · rw [alookup, if_neg hk] at ht
        have hnd' : (rest.map Prod.fst).Nodup := by
          simp only [List.map_cons, List.nodup_cons] at hnd
          exact hnd.2
        have ha' : alookup (setKey ac k0 (TempsChanger.nudge a0 t0)) k = some a := by
          rw [alookup_setKey_ne _ _ _ _ hk]; exact ha
        exact ih _ hnd' ht ha' h

theorem TempsChanger.setTarget_inv (s : TempsChanger) (ty : String) (v : Int)
    (h : TempsChanger.inv s) : TempsChanger.inv (TempsChanger.setTarget s ty v) := by
  intro k hk
  rw [TempsChanger.setTarget] at hk ⊢
  simp only at hk ⊢
  by_cases hkty : k = ty
  · subst hkty
    by_cases hac : (alookup s.actuals k).isSome
    · rw [if_pos hac]; exact hac
    · rw [if_neg hac, alookup_setKey_self]; rfl
  · rw [alookup_setKey_ne _ _ _ _ hkty] at hk
    by_cases hac : (alookup s.actuals ty).isSome
    · rw [if_pos hac]; exact h k hk
    · rw [if_neg hac, alookup_setKey_ne _ _ _ _ hkty]
      exact h k hk

/-- Under the invariant, the tick's pass over the target keys never misses a
lookup in `_actuals`, and it never removes a key from `_actuals`. -/
theorem TempsChanger.nudgeAll_total (l ac : List (String × Int))
    (h : ∀ p ∈ l, (alookup ac p.1).isSome) :
    ∃ ac', TempsChanger.nudgeAll l ac = some ac' ∧
      ∀ k : String, (alookup ac k).isSome → (alookup ac' k).isSome := by
  induction l generalizing ac with
  | nil => exact ⟨ac, rfl, fun k hk => hk⟩
  | cons p rest ih =>
    obtain ⟨k0, t0⟩ := p
    have h0 : (alookup ac k0).isSome := h (k0, t0) (List.mem_cons_self _ _)
    rcases ha0 : alookup ac k0 with _ | a0
    · rw [ha0] at h0; cases h0
    · have hrest : ∀ p ∈ rest,
          (alookup (setKey ac k0 (TempsChanger.nudge a0 t0)) p.1).isSome := by
        intro p hp
        exact alookup_setKey_isSome _ _ _ _ (h p (List.mem_cons_of_mem _ hp))
      obtain ⟨ac', hac', hpres⟩ := ih _ hrest
      refine ⟨ac', ?_, ?_⟩
      · rw [TempsChanger.nudgeAll, ha0, Option.some_bind]; exact hac'
      · intro k hk
        exact hpres k (alookup_setKey_isSome _ _ _ _ hk)

theorem TempsChanger.step_total (s : TempsChanger) (h : TempsChanger.inv s) :
    ∃ s', TempsChanger.step s = some s' ∧ TempsChanger.inv s' := by
  have hall : ∀ p ∈ s.targets, (alookup s.actuals p.1).isSome := by
    intro p hp
    exact h p.1 (alookup_isSome_of_mem _ _ hp)
  obtain ⟨ac', hac', hpres⟩ := TempsChanger.nudgeAll_total s.targets s.actuals hall
  refine ⟨{ s with actuals := ac' }, ?_, ?_⟩
  · rw [TempsChanger.step, hac']; rfl
  · intro k hk
    exact hpres k (h k hk)

/-! ## JobSimulator (`class JobSimulator(threading.Thread)`) -/

/-- State of the job-execution worker.  `gateOpen` is `self._pausedEvent`
(`true` = set = gate open = running; cleared = paused); `alive` models
`threading.Thread.isAlive()`: `true` from `start()` until `run()` returns.
The completion fraction `_percentCompleted` and the configured
`_jobLength` are rationals (the Python values are numbers read from the
settings). -/
structure JobSimulator where
  jobLength : ℚ
  stopped : Bool
  timeElapsed : Nat
  pct : ℚ
  filePos : Nat
  currentLayer : Nat
  gateOpen : Bool
  consumedFilament : List (Nat × Nat)
  alive : Bool
deriving DecidableEq

/-- Printer states of `astroprint.plugin.printer_comms.PrinterState` used by
the plugin, plus the initial offline state the engine starts in. -/
inductive PState
  | offline
  | connecting
  | operational
  | printing
  | paused
  | closed
deriving DecidableEq

/-- Callbacks and events the engine and the job thread emit.  File-identity
payload fields (`file`, `filename`, `origin`) are pass-through of the
manager's selected file and are omitted. -/
inductive SysEvent
  | printStarted
  | statusChanged (st : PState)
  | heatingUpdate (b : Bool)
  | setTempCmd (ch : String) (v : Int)
  | layerChange (n : Nat)
  | progressTick
  | printjobDoneMarker
  | fileSucceeded (time : Nat) (layers : Nat)
  | evPrintDone (time : Nat) (layers : Nat)
  | printJobCancelledMarker
  | evPrintFailed (time : Nat) (layers : Nat)
  | fileFailed (time : Nat)
deriving DecidableEq

/-- `JobSimulator.__init__`: counters at zero, filament dict `{0: 0}`,
`_pausedEvent` freshly created (cleared), thread alive once started. -/
def JobSimulator.init (jobLength : ℚ) : JobSimulator :=
  { jobLength := jobLength, stopped := false, timeElapsed := 0, pct := 0,
    filePos := 0, currentLayer := 0, gateOpen := false,
    consumedFilament := [(0, 0)], alive := true }

/-- `JobSimulator.setPaused`: `value` clears the gate (pause), otherwise
sets it (resume). -/
def JobSimulator.setPaused (s : JobSimulator) (value : Bool) : JobSimulator :=
  if value then { s with gateOpen := false } else { s with gateOpen := true }

/-- `JobSimulator.cancel`: set the stop flag; if the gate is not set,
force-resume so the blocked loop can observe the flag. -/
def JobSimulator.cancel (s : JobSimulator) : JobSimulator :=
  let s1 := { s with stopped := true }
  if s1.gateOpen then s1 else JobSimulator.setPaused s1 false

/-- Actions another thread may perform on the runner while its loop is
blocked on the pause gate. -/
inductive JSAct
  | cancel
  | pause
  | resume
deriving DecidableEq

def JobSimulator.applyAct (a : JSAct) (s : JobSimulator) : JobSimulator :=
  match a with
  | JSAct.cancel => JobSimulator.cancel s
  | JSAct.pause => JobSimulator.setPaused s true
  | JSAct.resume => JobSimulator.setPaused s false

/-- `self._pausedEvent.wait()`: proceed at once when the gate is open;
while it is closed, external actions arrive one by one; `none` models
blocking forever (the schedule runs out with the gate still closed). -/
def JobSimulator.waitGate : List JSAct → JobSimulator →
    Option (List JSAct × JobSimulator)
  | [], s => if s.gateOpen then some ([], s) else none
  | a :: rest, s =>
    if s.gateOpen then some (a :: rest, s)
    else JobSimulator.waitGate rest (JobSimulator.applyAct a s)

/-- One tick of the loop body of `JobSimulator.run`: advance elapsed time,
file position and layer, add 10 to tool 0's consumed filament, and
recompute `_percentCompleted = _timeElapsed / _jobLength`.  `none` models
the `KeyError` of `self._consumedFilament[0]` when tool 0 is missing
(never the case: `__init__` stores `{0: 0}`). -/
def JobSimulator.tick (s : JobSimulator) : Option JobSimulator :=
  (alookup s.consumedFilament 0).map fun v =>
    { s with
      timeElapsed := s.timeElapsed + 1,
      filePos := s.filePos + 1,
      currentLayer := s.currentLayer + 1,
      consumedFilament := setKey s.consumedFilament 0 (v + 10),
      pct := ((s.timeElapsed + 1 : Nat) : ℚ) / s.jobLength }

/-- The code after the loop of `JobSimulator.run`: return the engine to
Operational, zero both heater targets, then fire exactly one of the two
terminal outcome groups depending on `_percentCompleted >= 1`.  The
returned state has `alive := false`: `run` returning is the thread dying. -/
def JobSimulator.finish (s : JobSimulator) : JobSimulator × List SysEvent :=
  ({ s with alive := false },
    SysEvent.statusChanged PState.operational ::
    SysEvent.setTempCmd "tool0" 0 ::
    SysEvent.setTempCmd "bed" 0 ::
    (if 1 ≤ s.pct then
      [SysEvent.printjobDoneMarker,
       SysEvent.fileSucceeded s.timeElapsed s.currentLayer,
       SysEvent.evPrintDone s.timeElapsed s.currentLayer]
    else
      [SysEvent.printJobCancelledMarker,
       SysEvent.evPrintFailed s.timeElapsed s.currentLayer,
       SysEvent.fileFailed s.timeElapsed]))

/-- The `while not self._stopped and self._percentCompleted < 1` loop of
`JobSimulator.run`: wait on the gate, re-check the stop flag, tick, report
layer change and progress, sleep, repeat.  `none` models running out of
fuel or blocking forever on the gate. -/
def JobSimulator.runAux : Nat → List JSAct → JobSimulator →
    Option (JobSimulator × List SysEvent)
  | 0, _, _ => none
  | fuel + 1, acts, s =>
    if s.stopped = false ∧ s.pct < 1 then
      (JobSimulator.waitGate acts s).bind fun p =>
        if p.2.stopped then some (JobSimulator.finish p.2)
        else
          (JobSimulator.tick p.2).bind fun s2 =>
            (JobSimulator.runAux fuel p.1 s2).map fun r =>
              (r.1, SysEvent.layerChange s2.currentLayer ::
                    SysEvent.progressTick :: r.2)
    else some (JobSimulator.finish s)

/-- `JobSimulator.run`: `self._pausedEvent.set()` then the loop. -/
def JobSimulator.run (fuel : Nat) (acts : List JSAct) (s : JobSimulator) :
    Option (JobSimulator × List SysEvent) :=
  JobSimulator.runAux fuel acts { s with gateOpen := true }

def isJobDoneEv : SysEvent → Bool
  | SysEvent.evPrintDone _ _ => true
  | _ => false

def isJobFailedEv : SysEvent → Bool
  | SysEvent.evPrintFailed _ _ => true
  | _ => false

/-! ## VirtualComms (`class VirtualComms(Plugin, PrinterCommsService)`) -/

/-- A `threading.Timer`: a one-shot deferred action with its delay and
whether `cancel()` was called on it.  Its documented semantics: the
callback runs after the delay unless `cancel()` came first. -/
structure SimTimer where
  delay : ℚ
  cancelled : Bool
deriving DecidableEq

/-- `threading.Timer.cancel`. -/
def SimTimer.cancelTimer (t : SimTimer) : SimTimer :=
  { t with cancelled := true }

/-- Whether a `threading.Timer` executes its callback when its interval
elapses: it does exactly when it was not cancelled first. -/
def SimTimer.fires (t : SimTimer) : Bool :=
  !t.cancelled

/-- The engine state: the attributes set up by
`VirtualComms.initPrinterCommsService` (lines 45-51), the printer state
tracked through `_changePrinterState`, and the three delay settings
(`self._settings['connection'/'heatingUp'/'printJob']`). -/
structure VirtualComms where
  settingsConnection : ℚ
  settingsHeatingUp : ℚ
  settingsPrintJob : ℚ
  printing : Bool
  heatingUp : Bool
  heatingUpTimer : Option SimTimer
  printJob : Option JobSimulator
  comm : Bool
  preheating : Bool
  temperatureChanger : Option TempsChanger
  printerState : PState
deriving DecidableEq

/-- `VirtualComms.initPrinterCommsService` after the settings were
established (their computation from the optional YAML file is modelled
separately below): all worker references cleared, flags down. -/
def VirtualComms.initPrinterCommsService (conn heat job : ℚ) : VirtualComms :=
  { settingsConnection := conn, settingsHeatingUp := heat, settingsPrintJob := job,
    printing := false, heatingUp := false, heatingUpTimer := none,
    printJob := none, comm := false, preheating := false,
    temperatureChanger := none, printerState := PState.offline }

/-- `VirtualComms.setTemperature`: forward the target to the ramp when one
exists; a logged no-op otherwise. -/
def VirtualComms.setTemperature (s : VirtualComms) (ty : String) (value : Int) :
    VirtualComms :=
  match s.temperatureChanger with
  | some tc => { s with temperatureChanger := some (tc.setTarget ty value) }
  | none => s

/-- `VirtualComms.connect`: open the link, go to Connecting, and start a
`threading.Timer` for the connect delay.  The timer is a local variable
`t` in the source: it is returned alongside the new state but recorded in
no attribute of the engine. -/
def VirtualComms.connect (s : VirtualComms) : VirtualComms × SimTimer :=
  ({ s with comm := true, printerState := PState.connecting },
   { delay := s.settingsConnection, cancelled := false })

/-- The `doConnect` callback of the connect timer: unless a shutdown is in
progress, go Operational, create and start the ramp, and issue the two
initial 25-degree targets. -/
def VirtualComms.doConnect (shuttingDown : Bool) (s : VirtualComms) : VirtualComms :=
  if shuttingDown then s
  else
    let s1 := { s with printerState := PState.operational,
                       temperatureChanger := some TempsChanger.init }
    VirtualComms.setTemperature (VirtualComms.setTemperature s1 "tool0" 25) "bed" 25

/-- `VirtualComms.disconnect`: when the link is open, close it, stop and
join the ramp (dropping the reference), and go to Closed; otherwise a
no-op.  The join is the point where the ramp thread finishes: a stopped
ramp's remaining `run` publishes nothing (see the C7 theorem). -/
def VirtualComms.disconnect (s : VirtualComms) : VirtualComms :=
  if s.comm then
    { s with comm := false, temperatureChanger := none,
             printerState := PState.closed }
  else s

/-- The guard of `VirtualComms.startPrint`:
`self._printJob and self._printJob.isAlive()`. -/
def VirtualComms.printJobAlive (s : VirtualComms) : Bool :=
  match s.printJob with
  | some j => j.alive
  | none => false

/-- `VirtualComms.startPrint`: raise while a previous job thread is still
alive; otherwise go to Printing, fire the print-started event, set the
heat-up targets (tool0 210, bed 60), flag heating-up, clear `_printJob`,
and start the heat-up `threading.Timer` (stored in `_heatingUpTimer`). -/
def VirtualComms.startPrint (s : VirtualComms) :
    Except String (VirtualComms × List SysEvent) :=
  if VirtualComms.printJobAlive s then Except.error "A Print Job is still running"
  else
    let s1 := { s with printerState := PState.printing }
    let s2 := VirtualComms.setTemperature
      (VirtualComms.setTemperature s1 "tool0" 210) "bed" 60
    Except.ok
      ({ s2 with
          heatingUp := true,
          printJob := none,
          heatingUpTimer := some { delay := s.settingsHeatingUp, cancelled := false } },
       [SysEvent.printStarted, SysEvent.statusChanged PState.printing,
        SysEvent.heatingUpdate true])

/-- The `heatupDone` callback of the heat-up timer: unless shutting down,
clear the heating flag and the timer slot, and create and start the
`JobSimulator` for the selected file. -/
def VirtualComms.heatupDone (shuttingDown : Bool) (s : VirtualComms) : VirtualComms :=
  if shuttingDown then s
  else
    { s with heatingUp := false, heatingUpTimer := none,
             printJob := some (JobSimulator.init s.settingsPrintJob) }

/-- `VirtualComms.setPaused`: transition and fire the pause/resume event,
then forward the gate change to the active job if any. -/
def VirtualComms.setPaused (s : VirtualComms) (paused : Bool) : VirtualComms :=
  let s1 :=
    if paused then { s with printerState := PState.paused }
    else { s with printerState := PState.printing }
  match s1.printJob with
  | some j => { s1 with printJob := some (j.setPaused paused) }
  | none => s1

/-- Side effects of `executeCancelCommands` the claims observe: whether
`JobSimulator.cancel` was invoked, and which timers the engine cancelled. -/
structure CancelFx where
  jobCancelInvoked : Bool
  cancelledTimers : List SimTimer
deriving DecidableEq

/-- `VirtualComms.executeCancelCommands`: cancel the active job if any;
if paused, resume (the base class forwards to `setPaused False`); if a
heat-up timer is pending, cancel it, clear the slot, drop the heating
callback, zero both targets, settle, and go Operational. -/
def VirtualComms.executeCancelCommands (s : VirtualComms) (isPaused : Bool) :
    VirtualComms × CancelFx :=
  let p :=
    match s.printJob with
    | some j => ({ s with printJob := some j.cancel }, true)
    | none => (s, false)
  let s2 := if isPaused then VirtualComms.setPaused p.1 false else p.1
  match s2.heatingUpTimer with
  | some t =>
    let s3 := VirtualComms.setTemperature
      (VirtualComms.setTemperature { s2 with heatingUpTimer := none } "tool0" 0)
      "bed" 0
    ({ s3 with printerState := PState.operational },
     { jobCancelInvoked := p.2, cancelledTimers := [t.cancelTimer] })
  | none => (s2, { jobCancelInvoked := p.2, cancelledTimers := [] })

/-- Property `printTime`: delegate to the job, `None` without one. -/
def VirtualComms.printTime (s : VirtualComms) : Option Nat :=
  s.printJob.map fun j => j.timeElapsed

/-- Property `printProgress`. -/
def VirtualComms.printProgress (s : VirtualComms) : Option ℚ :=
  s.printJob.map fun j => j.pct

/-- Property `printFilePosition`. -/
def VirtualComms.printFilePosition (s : VirtualComms) : Option Nat :=
  s.printJob.map fun j => j.filePos

/-- Value of the `consumedFilamentData` property: the job's dict, or the
literal `0` without a job. -/
inductive FilamentData
  | zeroNoJob
  | data (m : List (Nat × Nat))
deriving DecidableEq

def VirtualComms.consumedFilamentData (s : VirtualComms) : FilamentData :=
  match s.printJob with
  | some j => FilamentData.data j.consumedFilament
  | none => FilamentData.zeroNoJob

/-- Property `consumedFilamentSum`: sum of the dict's values, 0 without a
job. -/
def VirtualComms.consumedFilamentSum (s : VirtualComms) : Nat :=
  match s.printJob with
  | some j => (j.consumedFilament.map Prod.snd).sum
  | none => 0

def exceptIsOk {ε α : Type} : Except ε α → Bool
  | Except.ok _ => true
  | Except.error _ => false

/-- `setTemperature` only touches the ramp reference: every other engine
attribute is unchanged. -/
theorem VirtualComms.setTemperature_eq (s : VirtualComms) (ty : String) (v : Int) :
    VirtualComms.setTemperature s ty v =
      { s with temperatureChanger :=
          s.temperatureChanger.map fun tc => tc.setTarget ty v } := by
  rcases h : s.temperatureChanger with _ | tc
  · rw [VirtualComms.setTemperature, h]
    cases s
    simp_all
  · rw [VirtualComms.setTemperature, h]
    cases s
    simp_all

/-- C1: `startPrint` fails with the job-already-running error exactly when
a previous `JobSimulator` exists and is still alive, succeeds and moves the
state to Printing otherwise; a job whose run loop has terminated (by
completion or cancellation) is no longer alive, so a `startPrint` after it
succeeds and transitions to Printing. -/
theorem virtualcomms_c1_startPrint_gate (s : VirtualComms) (j : JobSimulator) :
    ((VirtualComms.startPrint s).map fun r => r.1.printerState) =
      (if VirtualComms.printJobAlive s then
        Except.error "A Print Job is still running"
       else Except.ok PState.printing)
    ∧ (JobSimulator.finish j).1.alive = false
    ∧ VirtualComms.printJobAlive
        { s with printJob := some (JobSimulator.finish j).1 } = false
    ∧ ((VirtualComms.startPrint
          { s with printJob := some (JobSimulator.finish j).1 }).map
        fun r => r.1.printerState) = Except.ok PState.printing := by
  have halive : ∀ s' : VirtualComms, VirtualComms.printJobAlive s' = false →
      ((VirtualComms.startPrint s').map fun r => r.1.printerState) =
        Except.ok PState.printing := by
    intro s' h
    rw [VirtualComms.startPrint, h]
    simp [VirtualComms.setTemperature_eq, Except.map]
  have hdead : VirtualComms.printJobAlive
      { s with printJob := some (JobSimulator.finish j).1 } = false := by
    rw [VirtualComms.printJobAlive]
    simp [JobSimulator.finish]
  refine ⟨?_, rfl, hdead, halive _ hdead⟩
  by_cases h : VirtualComms.printJobAlive s
  · rw [if_pos h, VirtualComms.startPrint, h]
    rfl
  · rw [if_neg h]
    exact halive s (by simpa using h)

/-- C2: with job duration 3 and the heat-up already done, the started job's
loop performs exactly 3 ticks (elapsed time 3, three progress reports) and
terminates with completion 1, firing the job-done event with elapsed time 3
and layer count 3, with tool 0's consumed filament at 30. -/
theorem jobsimulator_c2_three_tick_run :
    ((JobSimulator.run 5 [] (JobSimulator.init 3)).map fun r => r.1.timeElapsed)
        = some 3
    ∧ ((JobSimulator.run 5 [] (JobSimulator.init 3)).map fun r => r.1.currentLayer)
        = some 3
    ∧ ((JobSimulator.run 5 [] (JobSimulator.init 3)).map fun r => r.1.pct)
        = some 1
    ∧ ((JobSimulator.run 5 [] (JobSimulator.init 3)).map fun r =>
        alookup r.1.consumedFilament 0) = some (some 30)
    ∧ ((JobSimulator.run 5 [] (JobSimulator.init 3)).map fun r =>
        r.2.count (SysEvent.evPrintDone 3 3)) = some 1
    ∧ ((JobSimulator.run 5 [] (JobSimulator.init 3)).map fun r =>
        r.2.countP isJobDoneEv) = some 1
    ∧ ((JobSimulator.run 5 [] (JobSimulator.init 3)).map fun r =>
        r.2.countP isJobFailedEv) = some 0
    ∧ ((JobSimulator.run 5 [] (JobSimulator.init 3)).map fun r =>
        r.2.count SysEvent.progressTick) = some 3
    ∧ ((JobSimulator.run 5 [] (JobSimulator.init 3)).map fun r => r.1.alive)
        = some false := by
  norm_num [JobSimulator.run, JobSimulator.runAux, JobSimulator.waitGate,
    JobSimulator.tick, JobSimulator.finish, JobSimulator.init, alookup, setKey,
    List.count, List.countP, isJobDoneEv, isJobFailedEv]
  decide

/-- C7: `disconnect` while connected closes the link, drops the ramp
reference and moves to Closed, and is a no-op while not connected; repeated
calls are idempotent; and a stopped ramp's remaining run publishes no
temperature snapshot whatever fuel it is given (so after the stop-and-join
inside `disconnect`, no temperature-update callback can fire). -/
theorem virtualcomms_c7_disconnect (s : VirtualComms) (tc : TempsChanger)
    (fuel : Nat) :
    VirtualComms.disconnect s =
      (if s.comm then
        { s with comm := false, temperatureChanger := none,
                 printerState := PState.closed }
       else s)
    ∧ VirtualComms.disconnect (VirtualComms.disconnect s) =
        VirtualComms.disconnect s
    ∧ TempsChanger.run fuel (TempsChanger.stop tc) =
        some (TempsChanger.stop tc, []) := by
  refine ⟨rfl, ?_, ?_⟩
  · by_cases h : s.comm
    · simp [VirtualComms.disconnect, h]
    · simp [VirtualComms.disconnect, h]
  · cases fuel with
    | zero => simp [TempsChanger.run, TempsChanger.stop]
    | succ n => simp [TempsChanger.run, TempsChanger.stop]

theorem TempsChanger.applyOps_inv (ops : List TCOp) (s : TempsChanger)
    (hs : TempsChanger.inv s) :
    ∃ s', TempsChanger.applyOps ops s = some s' ∧ TempsChanger.inv s' := by
  induction ops generalizing s with
  | nil => exact ⟨s, rfl, hs⟩
  | cons op rest ih =>
    cases op with
    | setTarget ty v =>
      obtain ⟨s', h1, h2⟩ := ih _ (TempsChanger.setTarget_inv s ty v hs)
      exact ⟨s', h1, h2⟩
    | tick =>
      obtain ⟨s1, hs1, hinv1⟩ := TempsChanger.step_total s hs
      obtain ⟨s', hs', hinv'⟩ := ih s1 hinv1
      refine ⟨s', ?_, hinv'⟩
      rw [TempsChanger.applyOps, hs1, Option.some_bind]
      exact hs'

/-- C9: starting from a fresh `TempsChanger`, every interleaving of
`setTarget` calls and run-loop ticks keeps every targeted channel present
in `_actuals` (the lazily created 0 entry), so the tick's lookups never
miss and the interleaving never raises. -/
theorem tempschanger_c9_targets_have_actuals (ops : List TCOp) :
    ∃ s', TempsChanger.applyOps ops TempsChanger.init = some s'
      ∧ TempsChanger.inv s' := by
  refine TempsChanger.applyOps_inv ops TempsChanger.init ?_
  intro k hk
  rw [TempsChanger.init] at hk
  simp [alookup] at hk

theorem JobSimulator.finish_countP (s : JobSimulator) :
    (JobSimulator.finish s).2.countP isJobDoneEv = (if 1 ≤ s.pct then 1 else 0)
    ∧ (JobSimulator.finish s).2.countP isJobFailedEv = (if 1 ≤ s.pct then 0 else 1) := by
  by_cases h : 1 ≤ s.pct
  · simp [JobSimulator.finish, h, List.countP_cons, isJobDoneEv, isJobFailedEv]
  · simp [JobSimulator.finish, h, List.countP_cons, isJobDoneEv, isJobFailedEv]

/-- C3: whenever the job loop terminates — reaching completion or being
cancelled — its emitted trace holds exactly one terminal outcome: one
job-done event (exactly when the completion fraction reached 1) or one
job-failed event, never both and never neither. -/
theorem jobsimulator_c3_one_terminal_outcome (fuel : Nat) (acts : List JSAct)
    (s sf : JobSimulator) (ev : List SysEvent)
    (h : JobSimulator.runAux fuel acts s = some (sf, ev)) :
    ev.countP isJobDoneEv + ev.countP isJobFailedEv = 1
    ∧ ev.countP isJobDoneEv = (if 1 ≤ sf.pct then 1 else 0) := by
  induction fuel generalizing acts s sf ev with
  | zero => rw [JobSimulator.runAux] at h; cases h
  | succ n ih =>
    rw [JobSimulator.runAux] at h
    by_cases hc : s.stopped = false ∧ s.pct < 1
    · rw [if_pos hc] at h
      rcases hw : JobSimulator.waitGate acts s with _ | p
      · rw [hw] at h; cases h
      · rw [hw, Option.some_bind] at h
        by_cases hst : p.2.stopped = true
        · rw [if_pos hst] at h
          have h2 : JobSimulator.finish p.2 = (sf, ev) := by
            injection h
          have hsf : sf = (JobSimulator.finish p.2).1 := (congrArg Prod.fst h2).symm
          have hpct : sf.pct = p.2.pct := by rw [hsf]; simp [JobSimulator.finish]
          have hev : ev = (JobSimulator.finish p.2).2 := (congrArg Prod.snd h2).symm
          obtain ⟨hd, hf⟩ := JobSimulator.finish_countP p.2
          subst hev
          rw [hd, hf, hpct]
          by_cases hone : 1 ≤ p.2.pct
          · rw [if_pos hone, if_pos hone]; exact ⟨rfl, rfl⟩
          · rw [if_neg hone, if_neg hone]; exact ⟨rfl, rfl⟩
        · rw [if_neg hst] at h
          rcases htk : JobSimulator.tick p.2 with _ | s2
          · rw [htk] at h; cases h
          · rw [htk, Option.some_bind] at h
            rcases hr : JobSimulator.runAux n p.1 s2 with _ | r
            · rw [hr] at h; cases h
            · rw [hr, Option.map_some'] at h
              have h2 : (r.1, SysEvent.layerChange s2.currentLayer ::
                  SysEvent.progressTick :: r.2) = (sf, ev) := by
                injection h
              have hsf : r.1 = sf := congrArg Prod.fst h2
              have hev : ev = SysEvent.layerChange s2.currentLayer ::
                  SysEvent.progressTick :: r.2 := (congrArg Prod.snd h2).symm
              have hrec : JobSimulator.runAux n p.1 s2 = some (sf, r.2) := by
                rw [hr, ← hsf]
              obtain ⟨ih1, ih2⟩ := ih p.1 s2 sf r.2 hrec
              subst hev
              simp only [List.countP_cons, isJobDoneEv, isJobFailedEv]
              simpa using ⟨ih1, ih2⟩
    · rw [if_neg hc] at h
      have h2 : JobSimulator.finish s = (sf, ev) := by injection h
      have hsf : sf = (JobSimulator.finish s).1 := (congrArg Prod.fst h2).symm
      have hpct : sf.pct = s.pct := by rw [hsf]; simp [JobSimulator.finish]
      have hev : ev = (JobSimulator.finish s).2 := (congrArg Prod.snd h2).symm
      obtain ⟨hd, hf⟩ := JobSimulator.finish_countP s
      subst hev
      rw [hd, hf, hpct]
      by_cases hone : 1 ≤ s.pct
      · rw [if_pos hone, if_pos hone]; exact ⟨rfl, rfl⟩
      · rw [if_neg hone, if_neg hone]; exact ⟨rfl, rfl⟩

/-- Witness for C3 at a concrete input: a cancelled job (stop flag set,
completion 0) terminates with exactly one terminal outcome, the failed
one. -/
theorem jobsimulator_c3_witness :
    (JobSimulator.finish { JobSimulator.init 3 with stopped := true }).2.countP
        isJobDoneEv
      + (JobSimulator.finish { JobSimulator.init 3 with stopped := true }).2.countP
        isJobFailedEv = 1
    ∧ (JobSimulator.finish { JobSimulator.init 3 with stopped := true }).2.countP
        isJobDoneEv
      = (if 1 ≤ (JobSimulator.finish { JobSimulator.init 3 with stopped := true }).1.pct
         then 1 else 0) :=
  jobsimulator_c3_one_terminal_outcome 1 []
    { JobSimulator.init 3 with stopped := true }
    (JobSimulator.finish { JobSimulator.init 3 with stopped := true }).1
    (JobSimulator.finish { JobSimulator.init 3 with stopped := true }).2
    (by decide)

theorem JobSimulator.waitGate_open (acts : List JSAct) (s : JobSimulator)
    (h : s.gateOpen = true) : JobSimulator.waitGate acts s = some (acts, s) := by
  cases acts with
  | nil => rw [JobSimulator.waitGate, if_pos h]
  | cons a rest => rw [JobSimulator.waitGate, if_pos h]

/-- C4: from any running state — in particular the paused state with the
gate closed — `cancel()` sets the stop flag and leaves the gate open, the
loop wakes from the gate, re-checks the stop flag and exits at once without
counting that tick; a cancel arriving before the loop top likewise makes
the next iteration exit immediately.  No deadlock is possible. -/
theorem jobsimulator_c4_cancel_terminates (s : JobSimulator) (fuel : Nat)
    (rest acts : List JSAct)
    (hg : s.gateOpen = false) (hs : s.stopped = false) (hp : s.pct < 1) :
    (JobSimulator.cancel s).stopped = true
    ∧ (JobSimulator.cancel s).gateOpen = true
    ∧ JobSimulator.runAux (fuel + 1) (JSAct.cancel :: rest) s
        = some (JobSimulator.finish (JobSimulator.cancel s))
    ∧ (JobSimulator.finish (JobSimulator.cancel s)).1.timeElapsed = s.timeElapsed
    ∧ JobSimulator.runAux (fuel + 1) acts (JobSimulator.cancel s)
        = some (JobSimulator.finish (JobSimulator.cancel s)) := by
  have hceq : JobSimulator.cancel s = { s with stopped := true, gateOpen := true } := by
    rw [JobSimulator.cancel]
    simp [JobSimulator.setPaused, hg]
  refine ⟨by rw [hceq], by rw [hceq], ?_, by rw [hceq]; rfl, ?_⟩
  · rw [JobSimulator.runAux, if_pos ⟨hs, hp⟩, JobSimulator.waitGate, if_neg (by rw [hg]; exact Bool.false_ne_true)]
    rw [show JobSimulator.applyAct JSAct.cancel s = JobSimulator.cancel s from rfl]
    rw [JobSimulator.waitGate_open rest _ (by rw [hceq]), Option.some_bind,
      if_pos (by rw [hceq])]
  · rw [JobSimulator.runAux, if_neg (by simp [hceq])]

/-- Witness for C4 at a concrete input: a freshly initialized job (gate
still closed, nothing elapsed) cancelled while the loop would block on the
gate. -/
theorem jobsimulator_c4_witness :
    (JobSimulator.cancel (JobSimulator.init 3)).stopped = true
    ∧ (JobSimulator.cancel (JobSimulator.init 3)).gateOpen = true
    ∧ JobSimulator.runAux (0 + 1) (JSAct.cancel :: []) (JobSimulator.init 3)
        = some (JobSimulator.finish (JobSimulator.cancel (JobSimulator.init 3)))
    ∧ (JobSimulator.finish (JobSimulator.cancel (JobSimulator.init 3))).1.timeElapsed
        = (JobSimulator.init 3).timeElapsed
    ∧ JobSimulator.runAux (0 + 1) [] (JobSimulator.cancel (JobSimulator.init 3))
        = some (JobSimulator.finish (JobSimulator.cancel (JobSimulator.init 3))) :=
  jobsimulator_c4_cancel_terminates (JobSimulator.init 3) 0 [] []
    (by decide) (by decide) (by decide)

theorem TempsChanger.step_lookup (s s' : TempsChanger) (k : String) (a tgt : Int)
    (hnd : (s.targets.map Prod.fst).Nodup)
    (ht : alookup s.targets k = some tgt)
    (ha : alookup s.actuals k = some a)
    (hstep : TempsChanger.step s = some s') :
    alookup s'.actuals k = some (TempsChanger.nudge a tgt) := by
  rcases hn : TempsChanger.nudgeAll s.targets s.actuals with _ | ac
  · rw [TempsChanger.step, hn] at hstep; cases hstep
  · rw [TempsChanger.step, hn, Option.map_some'] at hstep
    have h2 : ({ s with actuals := ac } : TempsChanger) = s' := by injection hstep
    have hac : s'.actuals = ac := by rw [← h2]
    rw [hac]
    exact TempsChanger.nudgeAll_lookup s.targets s.actuals ac k a tgt hnd ht ha hn

theorem TempsChanger.iter_equilibrium (n : Nat) (s sn : TempsChanger)
    (k : String) (tgt : Int)
    (hnd : (s.targets.map Prod.fst).Nodup)
    (ht : alookup s.targets k = some tgt)
    (ha : alookup s.actuals k = some tgt)
    (hiter : TempsChanger.iter n s = some sn) :
    alookup sn.actuals k = some tgt := by
  induction n generalizing s with
  | zero =>
    rw [TempsChanger.iter] at hiter
    cases hiter
    exact ha
  | succ m ih =>
    rw [TempsChanger.iter] at hiter
    rcases hst : TempsChanger.step s with _ | s1
    · rw [hst] at hiter; cases hiter
    · rw [hst, Option.some_bind] at hiter
      have htg : s1.targets = s.targets := TempsChanger.step_targets s s1 hst
      have h1 : alookup s1.actuals k = some tgt := by
        have := TempsChanger.step_lookup s s1 k tgt tgt hnd ht ha hst
        rw [this]
        have hne : TempsChanger.nudge tgt tgt = tgt := by
          simp [TempsChanger.nudge]
        rw [hne]
      exact ih s1 (by rw [htg]; exact hnd) (by rw [htg]; exact ht) h1 hiter

/-- C5: for any ramp state whose target dict has no duplicate keys (true of
every Python dict) and any targeted channel, one tick moves the channel's
actual by exactly the 5-degree nudge toward its target — subtract 5 above,
add 5 below, unchanged at equality — and a channel whose actual equals its
target stays unchanged over every number of further ticks. -/
theorem tempschanger_c5_nudge_step (s : TempsChanger) (k : String) (a tgt : Int)
    (s' sn : TempsChanger) (n : Nat)
    (hnd : (s.targets.map Prod.fst).Nodup)
    (ht : alookup s.targets k = some tgt)
    (ha : alookup s.actuals k = some a)
    (hstep : TempsChanger.step s = some s')
    (hiter : TempsChanger.iter n s = some sn) :
    alookup s'.actuals k = some (TempsChanger.nudge a tgt)
    ∧ alookup sn.actuals k
        = (if a = tgt then some a else alookup sn.actuals k) := by
  refine ⟨TempsChanger.step_lookup s s' k a tgt hnd ht ha hstep, ?_⟩
  by_cases heq : a = tgt
  · rw [if_pos heq, heq]
    exact TempsChanger.iter_equilibrium n s sn k tgt hnd ht (by rw [← heq]; exact ha) hiter
  · rw [if_neg heq]

/-- Witness for C5 at a concrete input: channel "tool0" at equilibrium
(actual = target = 25); one tick leaves it at the nudge of 25 toward 25,
and two further ticks leave it unchanged. -/
theorem tempschanger_c5_witness :
    alookup ({ stopped := false, targets := [("tool0", 25)],
               actuals := [("tool0", 25)] } : TempsChanger).actuals "tool0"
        = some (TempsChanger.nudge 25 25)
    ∧ alookup ({ stopped := false, targets := [("tool0", 25)],
                 actuals := [("tool0", 25)] } : TempsChanger).actuals "tool0"
        = (if (25 : Int) = 25 then some 25
           else alookup ({ stopped := false, targets := [("tool0", 25)],
                           actuals := [("tool0", 25)] } : TempsChanger).actuals "tool0") :=
  tempschanger_c5_nudge_step
    { stopped := false, targets := [("tool0", 25)], actuals := [("tool0", 25)] }
    "tool0" 25 25
    { stopped := false, targets := [("tool0", 25)], actuals := [("tool0", 25)] }
    { stopped := false, targets := [("tool0", 25)], actuals := [("tool0", 25)] }
    2 (by decide) (by decide) (by decide) (by decide) (by decide)

/-- C6 counterexample: at the concrete initial engine, `connect` starts a
pending connect-delay timer but stores it in no attribute — the engine's
only deferred-action slot (`_heatingUpTimer`) stays `None` — and the
engine's cancellation entry point cancels no timer, so the connect-delay
action is not cancellable by the engine and will fire.  This refutes the
claim that both deferred actions are owned by the engine and may be
cancelled before firing. -/
theorem virtualcomms_c6_counterexample :
    (VirtualComms.connect
        (VirtualComms.initPrinterCommsService 1 2 10)).1.heatingUpTimer = none
    ∧ (VirtualComms.executeCancelCommands
        (VirtualComms.connect (VirtualComms.initPrinterCommsService 1 2 10)).1
        false).2.cancelledTimers = []
    ∧ (VirtualComms.connect
        (VirtualComms.initPrinterCommsService 1 2 10)).2.cancelled = false
    ∧ SimTimer.fires
        (VirtualComms.connect (VirtualComms.initPrinterCommsService 1 2 10)).2
      = true := by
  refine ⟨rfl, rfl, rfl, rfl⟩

/-- C6 as amended: the heat-up deferred action is owned by the engine
(stored in `_heatingUpTimer` by a successful `startPrint`, initially not
cancelled), `executeCancelCommands` cancels it and clears the slot, and a
cancelled deferred action never executes its callback; the connect-delay
action, by contrast, is started without the engine keeping a reference
(its callback instead re-checks the shutdown flag at fire time, doing
nothing during a shutdown). -/
theorem virtualcomms_c6_heatup_timer_owned (s s' : VirtualComms)
    (ev : List SysEvent) (t : SimTimer)
    (h : VirtualComms.startPrint s = Except.ok (s', ev)) :
    s'.heatingUpTimer = some { delay := s.settingsHeatingUp, cancelled := false }
    ∧ (VirtualComms.executeCancelCommands s' false).1.heatingUpTimer = none
    ∧ (VirtualComms.executeCancelCommands s' false).2.cancelledTimers
        = [{ delay := s.settingsHeatingUp, cancelled := true }]
    ∧ SimTimer.fires (SimTimer.cancelTimer t) = false
    ∧ VirtualComms.doConnect true s = s := by
  by_cases hal : VirtualComms.printJobAlive s = true
  · rw [VirtualComms.startPrint, if_pos hal] at h
    cases h
  · have hal' : VirtualComms.printJobAlive s = false := by
      simpa using hal
    rw [VirtualComms.startPrint, if_neg (by rw [hal']; exact Bool.false_ne_true)] at h
    have h2 := (Except.ok.injEq _ _ ).mp h
    have hs' : s' = { VirtualComms.setTemperature
        (VirtualComms.setTemperature { s with printerState := PState.printing }
          "tool0" 210) "bed" 60 with
        heatingUp := true, printJob := none,
        heatingUpTimer := some { delay := s.settingsHeatingUp, cancelled := false } } := by
      exact (congrArg Prod.fst h2).symm
    refine ⟨?_, ?_, ?_, rfl, by rw [VirtualComms.doConnect, if_pos rfl]⟩
    · rw [hs']
    · rw [hs']
      simp [VirtualComms.executeCancelCommands, VirtualComms.setTemperature_eq]
    · rw [hs']
      simp [VirtualComms.executeCancelCommands, VirtualComms.setTemperature_eq,
        SimTimer.cancelTimer]

/-- Witness for the amended C6 at a concrete input: `startPrint` on the
freshly initialized engine (delays 1, 2, 10). -/
theorem virtualcomms_c6_witness :
    ({ settingsConnection := 1, settingsHeatingUp := 2, settingsPrintJob := 10,
       printing := false, heatingUp := true,
       heatingUpTimer := some { delay := 2, cancelled := false },
       printJob := none, comm := false, preheating := false,
       temperatureChanger := none,
       printerState := PState.printing } : VirtualComms).heatingUpTimer
      = some { delay := 2, cancelled := false }
    ∧ (VirtualComms.executeCancelCommands
        { settingsConnection := 1, settingsHeatingUp := 2, settingsPrintJob := 10,
          printing := false, heatingUp := true,
          heatingUpTimer := some { delay := 2, cancelled := false },
          printJob := none, comm := false, preheating := false,
          temperatureChanger := none, printerState := PState.printing }
        false).1.heatingUpTimer = none
    ∧ (VirtualComms.executeCancelCommands
        { settingsConnection := 1, settingsHeatingUp := 2, settingsPrintJob := 10,
          printing := false, heatingUp := true,
          heatingUpTimer := some { delay := 2, cancelled := false },
          printJob := none, comm := false, preheating := false,
          temperatureChanger := none, printerState := PState.printing }
        false).2.cancelledTimers = [{ delay := 2, cancelled := true }]
    ∧ SimTimer.fires (SimTimer.cancelTimer { delay := 2, cancelled := false }) = false
    ∧ VirtualComms.doConnect true (VirtualComms.initPrinterCommsService 1 2 10)
        = VirtualComms.initPrinterCommsService 1 2 10 :=
  virtualcomms_c6_heatup_timer_owned
    (VirtualComms.initPrinterCommsService 1 2 10)
    { settingsConnection := 1, settingsHeatingUp := 2, settingsPrintJob := 10,
      printing := false, heatingUp := true,
      heatingUpTimer := some { delay := 2, cancelled := false },
      printJob := none, comm := false, preheating := false,
      temperatureChanger := none, printerState := PState.printing }
    [SysEvent.printStarted, SysEvent.statusChanged PState.printing,
     SysEvent.heatingUpdate true]
    { delay := 2, cancelled := false }
    rfl

/-- C10: after a successful `startPrint` and before the heat-up deferred
action fires, the engine's active-job reference is `None`: the query
accessors return their no-job values, `executeCancelCommands` does not
invoke `JobSimulator.cancel`, and a second `startPrint` in this window does
not raise the job-already-running error. -/
theorem virtualcomms_c10_heatup_window (s s' : VirtualComms)
    (ev : List SysEvent) (b : Bool)
    (h : VirtualComms.startPrint s = Except.ok (s', ev)) :
    s'.printJob = none
    ∧ VirtualComms.printTime s' = none
    ∧ VirtualComms.printProgress s' = none
    ∧ VirtualComms.printFilePosition s' = none
    ∧ VirtualComms.consumedFilamentData s' = FilamentData.zeroNoJob
    ∧ VirtualComms.consumedFilamentSum s' = 0
    ∧ (VirtualComms.executeCancelCommands s' b).2.jobCancelInvoked = false
    ∧ exceptIsOk (VirtualComms.startPrint s') = true := by
  by_cases hal : VirtualComms.printJobAlive s = true
  · rw [VirtualComms.startPrint, if_pos hal] at h
    cases h
  · have hal' : VirtualComms.printJobAlive s = false := by
      simpa using hal
    rw [VirtualComms.startPrint, if_neg (by rw [hal']; exact Bool.false_ne_true)] at h
    have h2 := (Except.ok.injEq _ _ ).mp h
    have hs' : s' = { VirtualComms.setTemperature
        (VirtualComms.setTemperature { s with printerState := PState.printing }
          "tool0" 210) "bed" 60 with
        heatingUp := true, printJob := none,
        heatingUpTimer := some { delay := s.settingsHeatingUp, cancelled := false } } := by
      exact (congrArg Prod.fst h2).symm
    have hnj : s'.printJob = none := by rw [hs']
    refine ⟨hnj, ?_, ?_, ?_, ?_, ?_, ?_, ?_⟩
    · rw [VirtualComms.printTime, hnj]; rfl
    · rw [VirtualComms.printProgress, hnj]; rfl
    · rw [VirtualComms.printFilePosition, hnj]; rfl
    · rw [VirtualComms.consumedFilamentData, hnj]
    · rw [VirtualComms.consumedFilamentSum, hnj]
    · rw [hs']
      cases b with
      | false =>
        simp [VirtualComms.executeCancelCommands, VirtualComms.setPaused,
          VirtualComms.setTemperature_eq]
      | true =>
        simp [VirtualComms.executeCancelCommands, VirtualComms.setPaused,
          VirtualComms.setTemperature_eq]
    · have hal2 : VirtualComms.printJobAlive s' = false := by
        rw [VirtualComms.printJobAlive, hnj]
      rw [VirtualComms.startPrint, if_neg (by rw [hal2]; exact Bool.false_ne_true)]
      rfl

/-- Witness for C10 at a concrete input: `startPrint` on the freshly
initialized engine (delays 1, 2, 10), checking the heat-up window. -/
theorem virtualcomms_c10_witness :
    ({ settingsConnection := 1, settingsHeatingUp := 2, settingsPrintJob := 10,
       printing := false, heatingUp := true,
       heatingUpTimer := some { delay := 2, cancelled := false },
       printJob := none, comm := false, preheating := false,
       temperatureChanger := none,
       printerState := PState.printing } : VirtualComms).printJob = none
    ∧ VirtualComms.printTime
        { settingsConnection := 1, settingsHeatingUp := 2, settingsPrintJob := 10,
          printing := false, heatingUp := true,
          heatingUpTimer := some { delay := 2, cancelled := false },
          printJob := none, comm := false, preheating := false,
          temperatureChanger := none, printerState := PState.printing } = none
    ∧ VirtualComms.printProgress
        { settingsConnection := 1, settingsHeatingUp := 2, settingsPrintJob := 10,
          printing := false, heatingUp := true,
          heatingUpTimer := some { delay := 2, cancelled := false },
          printJob := none, comm := false, preheating := false,
          temperatureChanger := none, printerState := PState.printing } = none
    ∧ VirtualComms.printFilePosition
        { settingsConnection := 1, settingsHeatingUp := 2, settingsPrintJob := 10,
          printing := false, heatingUp := true,
          heatingUpTimer := some { delay := 2, cancelled := false },
          printJob := none, comm := false, preheating := false,
          temperatureChanger := none, printerState := PState.printing } = none
    ∧ VirtualComms.consumedFilamentData
        { settingsConnection := 1, settingsHeatingUp := 2, settingsPrintJob := 10,
          printing := false, heatingUp := true,
          heatingUpTimer := some { delay := 2, cancelled := false },
          printJob := none, comm := false, preheating := false,
          temperatureChanger := none, printerState := PState.printing }
        = FilamentData.zeroNoJob
    ∧ VirtualComms.consumedFilamentSum
        { settingsConnection := 1, settingsHeatingUp := 2, settingsPrintJob := 10,
          printing := false, heatingUp := true,
          heatingUpTimer := some { delay := 2, cancelled := false },
          printJob := none, comm := false, preheating := false,
          temperatureChanger := none, printerState := PState.printing } = 0
    ∧ (VirtualComms.executeCancelCommands
        { settingsConnection := 1, settingsHeatingUp := 2, settingsPrintJob := 10,
          printing := false, heatingUp := true,
          heatingUpTimer := some { delay := 2, cancelled := false },
          printJob := none, comm := false, preheating := false,
          temperatureChanger := none, printerState := PState.printing }
        false).2.jobCancelInvoked = false
    ∧ exceptIsOk (VirtualComms.startPrint
        { settingsConnection := 1, settingsHeatingUp := 2, settingsPrintJob := 10,
          printing := false, heatingUp := true,
          heatingUpTimer := some { delay := 2, cancelled := false },
          printJob := none, comm := false, preheating := false,
          temperatureChanger := none, printerState := PState.printing }) = true :=
  virtualcomms_c10_heatup_window
    (VirtualComms.initPrinterCommsService 1 2 10)
    { settingsConnection := 1, settingsHeatingUp := 2, settingsPrintJob := 10,
      printing := false, heatingUp := true,
      heatingUpTimer := some { delay := 2, cancelled := false },
      printJob := none, comm := false, preheating := false,
      temperatureChanger := none, printerState := PState.printing }
    [SysEvent.printStarted, SysEvent.statusChanged PState.printing,
     SysEvent.heatingUpdate true]
    false
    rfl

/-! ## Configuration loading (`initPrinterCommsService`, lines 20-43)

The optional `virtual-printer-settings.yaml` file and the `merge_dict`
deep merge over the built-in defaults. -/

/-- A parsed YAML value as the plugin consumes it: a numeric scalar or a
mapping. -/
inductive Yaml
  | num (q : ℚ)
  | dict (entries : List (String × Yaml))

def Yaml.isNum : Yaml → Bool
  | Yaml.num _ => true
  | Yaml.dict _ => false

/-- The built-in defaults of `self._settings`. -/
def defaultSettings : List (String × Yaml) :=
  [("connection", Yaml.num 1), ("heatingUp", Yaml.num 2), ("printJob", Yaml.num 10)]

/-- The body of `merge_dict(a, b)` iterating over the entries of `b`:
a scalar value overwrites `a[key]`; a mapping value recurses into
`a[key]`.  `none` models the exceptions the source can raise: subscripting
a scalar `a` (TypeError), a missing `a[key]` for a nested merge
(KeyError).  Mutation of the nested dict in place is modelled by writing
the merged value back with `setKey`. -/
def mergeEntries : Yaml → List (String × Yaml) → Option Yaml
  | a, [] => some a
  | Yaml.num _, _ :: _ => none
  | Yaml.dict as, (k, Yaml.num q) :: rest =>
    mergeEntries (Yaml.dict (setKey as k (Yaml.num q))) rest
  | Yaml.dict as, (k, Yaml.dict bs) :: rest =>
    match alookup as k with
    | none => none
    | some sub =>
      match mergeEntries sub bs with
      | none => none
      | some m => mergeEntries (Yaml.dict (setKey as k m)) rest
termination_by _ l => sizeOf l
decreasing_by
  all_goals simp_wf
  all_goals omega

/-- `merge_dict(a, b)`: iterating `for key in b` over a non-mapping raises
(TypeError), otherwise merge its entries into `a`. -/
def mergeDict (a b : Yaml) : Option Yaml :=
  match b with
  | Yaml.num _ => none
  | Yaml.dict bs => mergeEntries a bs

/-- The outcome of looking for and parsing the external settings file:
absent, present but unparseable (`yaml.safe_load` raises), or parsed to a
value (`none` is YAML null, e.g. an empty file). -/
inductive ConfigFile
  | absent
  | malformed
  | parsed (v : Option Yaml)

/-- Python truthiness of the parsed value, as tested by `if config:`. -/
def yamlTruthy : Option Yaml → Bool
  | none => false
  | some (Yaml.num q) => if q = 0 then false else true
  | some (Yaml.dict l) => !l.isEmpty

/-- The settings computation of `initPrinterCommsService`: defaults, then
merge a truthy parsed config over them.  A parse error propagates (nothing
catches it), and an exception inside `merge_dict` propagates too;
`Except.error ()` models the raised exception reaching the caller. -/
def initSettings : ConfigFile → Except Unit (List (String × Yaml))
  | ConfigFile.absent => Except.ok defaultSettings
  | ConfigFile.malformed => Except.error ()
  | ConfigFile.parsed c =>
    if yamlTruthy c then
      match c with
      | some y =>
        match mergeDict (Yaml.dict defaultSettings) y with
        | some (Yaml.dict merged) => Except.ok merged
        | _ => Except.error ()
      | none => Except.ok defaultSettings
    else Except.ok defaultSettings

/-- C8 counterexample: a malformed configuration file does not silently
fall back to the defaults — `yaml.safe_load` raises and nothing catches
the error, so initialization fails instead of producing the default
settings mapping. -/
theorem virtualcomms_c8_counterexample :
    initSettings ConfigFile.malformed = Except.error ()
    ∧ initSettings ConfigFile.malformed ≠ Except.ok defaultSettings :=
  ⟨rfl, fun hcontra => Except.noConfusion hcontra⟩

theorem mergeEntries_scalar (es : List (String × Yaml)) (as : List (String × Yaml))
    (hs : es.all (fun p => p.2.isNum) = true) :
    mergeEntries (Yaml.dict as) es =
      some (Yaml.dict (es.foldl (fun a p => setKey a p.1 p.2) as)) := by
  induction es generalizing as with
  | nil => simp [mergeEntries]
  | cons p rest ih =>
    obtain ⟨k, v⟩ := p
    cases v with
    | num q =>
      rw [mergeEntries, List.foldl_cons]
      refine ih _ ?_
      rw [List.all_cons] at hs
      exact (Bool.and_eq_true _ _).mp hs |>.2
    | dict bs =>
      exfalso
      rw [List.all_cons] at hs
      have := (Bool.and_eq_true _ _).mp hs |>.1
      simp [Yaml.isNum] at this

/-- C8 as amended: an absent file, a YAML-null (empty) file and a falsy
parsed value all silently fall back to the built-in defaults
(connection = 1, heat-up = 2, job = 10); a parsed mapping of scalar
overrides is merged key-by-key over the defaults (scalar keys overwrite,
and a nested mapping merges recursively into the matching nested default
when one exists); but a malformed file raises out of initialization
instead of falling back. -/
theorem virtualcomms_c8_config_merge (es : List (String × Yaml))
    (hs : es.all (fun p => p.2.isNum) = true) :
    initSettings ConfigFile.absent = Except.ok defaultSettings
    ∧ initSettings (ConfigFile.parsed none) = Except.ok defaultSettings
    ∧ alookup defaultSettings "connection" = some (Yaml.num 1)
    ∧ alookup defaultSettings "heatingUp" = some (Yaml.num 2)
    ∧ alookup defaultSettings "printJob" = some (Yaml.num 10)
    ∧ initSettings (ConfigFile.parsed (some (Yaml.dict es)))
        = Except.ok (es.foldl (fun a p => setKey a p.1 p.2) defaultSettings)
    ∧ initSettings ConfigFile.malformed = Except.error () := by
  refine ⟨rfl, rfl, rfl, rfl, rfl, ?_, rfl⟩
  cases es with
  | nil => rfl
  | cons p rest =>
    rw [initSettings]
    rw [if_pos (by rw [yamlTruthy]; simp)]
    rw [mergeDict, mergeEntries_scalar _ _ hs]

/-- Witness for the amended C8 at a concrete input: a parsed configuration
overriding the connection delay with the scalar 5. -/
theorem virtualcomms_c8_witness :
    initSettings ConfigFile.absent = Except.ok defaultSettings
    ∧ initSettings (ConfigFile.parsed none) = Except.ok defaultSettings
    ∧ alookup defaultSettings "connection" = some (Yaml.num 1)
    ∧ alookup defaultSettings "heatingUp" = some (Yaml.num 2)
    ∧ alookup defaultSettings "printJob" = some (Yaml.num 10)
    ∧ initSettings (ConfigFile.parsed (some (Yaml.dict [("connection", Yaml.num 5)])))
        = Except.ok ([("connection", Yaml.num 5)].foldl
            (fun a p => setKey a p.1 p.2) defaultSettings)
    ∧ initSettings ConfigFile.malformed = Except.error () :=
  virtualcomms_c8_config_merge [("connection", Yaml.num 5)] rfl
